import Mathlib

/-!
Shallow embedding of the `rutiles` block-device inventory tool.

Source files embedded here: `src/sys_block.rs`, `src/dev_disk.rs`,
`src/proc_mounts.rs`, `src/fstab.rs`, `src/magic.rs`, `src/combined.rs`.

Modelling conventions:
- Rust `u64` sizes are `Nat` (no arithmetic in the embedded code can overflow a
  mathematical natural; the only multiplication is `blocks * 512`).
- Raw device contents are a `ByteBuf` (a byte count plus the byte value at
  each position); the environment `devs : String → Option ByteBuf` maps a
  device name to the content of `/dev/{name}`, with `none` meaning the open
  fails (the only I/O error the detection engine can surface).
- Rust `f64` arithmetic in `readable_size_from` is modelled exactly over `ℚ`:
  the `u64 as f64` conversion rounds to 53 significant bits (round half to
  even), division by `1024.0` is exact on binary floating point in the range
  used (the exponent only decreases and values stay at or above 1), and the
  `{:.1}` format rounds half to even at one decimal place, which is Rust's
  documented formatting behaviour.
-/

/-! ### Record sets produced by the four source readers (`src/*.rs`) -/

/-- One `/etc/fstab` entry (`src/fstab.rs`, struct `Fstab`). -/
structure Fstab where
  device : String
  mount_point : String
  fs_type : String
  options : List String
  dump_freq : Int
  fsck_pass : Int
  deriving Repr, DecidableEq

/-- The static-mount record set (`src/fstab.rs`, struct `FstabInfo`). -/
structure FstabInfo where
  info : List Fstab

/-- One `/proc/mounts` entry (`src/proc_mounts.rs`, struct `ProcMounts`). -/
structure ProcMounts where
  name : String
  mount_point : String
  fstype : String
  deriving Repr, DecidableEq

/-- The live-mount record set (`src/proc_mounts.rs`, struct `ProcMountsInfo`). -/
structure ProcMountsInfo where
  info : List ProcMounts

/-- One `/dev/disk` label/UUID record (`src/dev_disk.rs`, struct `DevDisk`). -/
structure DevDisk where
  name : String
  label : Option String
  uuid : Option (List String)
  deriving Repr, DecidableEq

/-- The label/UUID record set (`src/dev_disk.rs`, struct `DevDiskInfo`). -/
structure DevDiskInfo where
  info : List DevDisk

/-- Data from `/sys/block/{device}/` data (`src/sys_block.rs`, struct
`SysBlockDeviceEntries`). `size` is already in bytes (the reader multiplies the
512-byte-sector count by 512, see `read_size` below). -/
structure SysBlockDeviceEntries where
  model : String
  removable : Bool
  size : Nat
  deriving Repr, DecidableEq

/-- Data from `/sys/block/{device}/{partition}/` data (`src/sys_block.rs`, struct
`SysBlockPartitionEntries`). The aggregation in `src/combined.rs` line 112
reads `part.info.removable` as well as `part.info.size`, so the field is
carried here. -/
structure SysBlockPartitionEntries where
  size : Nat
  removable : Bool
  deriving Repr, DecidableEq

/-- One partition (`src/sys_block.rs`, struct `SysBlockPartition`). -/
structure SysBlockPartition where
  name : String
  info : SysBlockPartitionEntries
  deriving Repr, DecidableEq

/-- One block device (`src/sys_block.rs`, struct `SysBlockDevice`). -/
structure SysBlockDevice where
  name : String
  info : SysBlockDeviceEntries
  part : Option (List SysBlockPartition)
  deriving Repr, DecidableEq

/-- The device-topology record set (`src/sys_block.rs`, struct `SysBlockInfo`). -/
structure SysBlockInfo where
  info : List SysBlockDevice

/-- The unit conversion in `read_size` (`src/sys_block.rs` lines 132-139):
the 512-byte-sector count parsed from `/sys/block/.../size` is multiplied by
512 to give a byte count. -/
def read_size (blocks : Nat) : Nat :=
  blocks * 512

/-! ### The signature detection engine (`src/magic.rs`) -/

/-- Byte values of an ASCII signature string. -/
def str_bytes (s : String) : List Nat :=
  s.data.map (fun c => c.toNat)

namespace fs_magic

def EXT4_MAGIC : Nat := 0xEF53
def BTRFS_MAGIC : Nat := 0x9123683E
def XFS_MAGIC : Nat := 0x58465342
def NTFS_MAGIC : List Nat := str_bytes ("NTFS ")
def FAT12_MAGIC : List Nat := str_bytes ("FAT12   ")
def FAT16_MAGIC : List Nat := str_bytes ("FAT16   ")
def FAT32_MAGIC : List Nat := str_bytes ("FAT32   ")
def EXFAT_MAGIC : List Nat := str_bytes ("EXFAT   ")
def SWAP_MAGIC : List Nat := str_bytes ("SWAP-SPACE")
def SWAP_MAGIC_2 : List Nat := str_bytes ("SWAPSPACE2")
def ISO9660_MAGIC : List Nat := str_bytes ("CD001")

end fs_magic

/-- The content of a raw device node: `len` bytes, byte `i` having value
`byte i` (for `i < len`; larger indices are never consulted, every access in
the engine below is guarded by a length check exactly as in the source). -/
structure ByteBuf where
  len : Nat
  byte : Nat → Nat

/-- The byte range `[offset, offset+count)` of a buffer, as a list. Used only
under the guard `offset + count ≤ len`, mirroring a successful `read_exact`
or an in-bounds slice `buffer[offset..offset+count]`. -/
def ByteBuf.extract (b : ByteBuf) (offset count : Nat) : List Nat :=
  (List.range count).map (fun i => b.byte (offset + i))

/-- From `src/magic.rs`, enum `FsType`. -/
inductive FsType where
  | Ext4
  | Btrfs
  | Xfs
  | Ntfs
  | Vfat
  | ExFat
  | Swap
  | Iso9660
  deriving Repr, DecidableEq

/-- From `src/magic.rs`, enum `Detection`. The secondary check is carried as a
predicate on the read buffer, exactly as in the source. -/
inductive Detection where
  | byteSequence (offset : Nat) (signature : List Nat)
      (secondary_check : Option (ByteBuf → Bool))
  | magicU16 (offset : Nat) (magic : Nat)
  | magicU32 (offset : Nat) (magic : Nat)
  | magicU64 (offset : Nat) (magic : Nat)

/-- From `src/magic.rs`, struct `Signature`. -/
structure Signature where
  method : Detection
  fs_type : FsType

/-- From `src/magic.rs`, fn `has_boot_sector`: boot sector marker `0x55 0xAA` at
bytes 510 and 511. -/
def has_boot_sector (buffer : ByteBuf) : Bool :=
  512 ≤ buffer.len && buffer.byte 510 == 0x55 && buffer.byte 511 == 0xAA

/-- From `src/magic.rs`, fn `fs_type_to_string`. -/
def fs_type_to_string (fs_type : FsType) : String :=
  match fs_type with
  | FsType.ExFat => "exfat"
  | FsType.Btrfs => "btrfs"
  | FsType.Xfs => "xfs"
  | FsType.Ntfs => "ntfs"
  | FsType.Vfat => "vfat"
  | FsType.Ext4 => "ext4"
  | FsType.Swap => "swap"
  | FsType.Iso9660 => "iso9660"

/-- The `signatures` vector built in `get_fstype_with_magic`
(`src/magic.rs` lines 68-170), in source order. -/
def signatures : List Signature :=
  [ { fs_type := FsType.Vfat,
      method := Detection.byteSequence 0x36 fs_magic.FAT12_MAGIC (some has_boot_sector) },
    { fs_type := FsType.Vfat,
      method := Detection.byteSequence 0x36 fs_magic.FAT16_MAGIC (some has_boot_sector) },
    { fs_type := FsType.Vfat,
      method := Detection.byteSequence 0x52 fs_magic.FAT32_MAGIC (some has_boot_sector) },
    { fs_type := FsType.Ntfs,
      method := Detection.byteSequence 3 fs_magic.NTFS_MAGIC (some has_boot_sector) },
    { fs_type := FsType.ExFat,
      method := Detection.byteSequence 3 fs_magic.EXFAT_MAGIC none },
    { fs_type := FsType.Swap,
      method := Detection.byteSequence (4096 - 10) fs_magic.SWAP_MAGIC_2 none },
    { fs_type := FsType.Swap,
      method := Detection.byteSequence (4096 - 10) fs_magic.SWAP_MAGIC none },
    { fs_type := FsType.Xfs,
      method := Detection.magicU32 0 fs_magic.XFS_MAGIC },
    { fs_type := FsType.Ext4,
      method := Detection.magicU16 1080 fs_magic.EXT4_MAGIC },
    { fs_type := FsType.Iso9660,
      method := Detection.byteSequence 0x8001 fs_magic.ISO9660_MAGIC none },
    { fs_type := FsType.Iso9660,
      method := Detection.byteSequence 0x8801 fs_magic.ISO9660_MAGIC none },
    { fs_type := FsType.Iso9660,
      method := Detection.byteSequence 0x9001 fs_magic.ISO9660_MAGIC none },
    { fs_type := FsType.Btrfs,
      method := Detection.magicU64 65600 fs_magic.BTRFS_MAGIC } ]

/-- Little-endian value of a byte list, as in `uN::from_le_bytes`. -/
def u_from_le (bytes : List Nat) : Nat :=
  bytes.foldr (fun b acc => b + 256 * acc) 0

/-- One iteration of the signature loop of `get_fstype_with_magic`
(`src/magic.rs` lines 172-262) on device content `data`.
`none` covers both a failed (short) read and a non-matching rule, since the
source treats both with `continue`. A seek never fails on a regular device
node, and `read_exact` of `n` bytes from position `o` fails exactly when
fewer than `n` bytes are available there, i.e. when `data.len < o + n`. -/
def eval_sig (data : ByteBuf) (sig : Signature) : Option String :=
  match sig.method with
  | Detection.byteSequence offset signature secondary_check =>
    let read_size := max (offset + signature.length) 4096
    if data.len < read_size then none
    else
      let buffer : ByteBuf := { len := read_size, byte := data.byte }
      if (match secondary_check with
          | some check_fn => check_fn buffer
          | none => true) then
        if buffer.extract offset signature.length == signature then
          some (fs_type_to_string sig.fs_type)
        else none
      else none
  | Detection.magicU16 offset magic =>
    if data.len < offset + 2 then none
    else if u_from_le (data.extract offset 2) == magic then
      some (fs_type_to_string sig.fs_type)
    else none
  | Detection.magicU32 offset magic =>
    if data.len < offset + 4 then none
    else if u_from_le (data.extract offset 4) == magic then
      some (fs_type_to_string sig.fs_type)
    else none
  | Detection.magicU64 offset magic =>
    if data.len < offset + 8 then none
    else if u_from_le (data.extract offset 8) == magic then
      some (fs_type_to_string sig.fs_type)
    else none

/-- The signature loop: first matching rule wins, later rules are not
consulted. -/
def scan_signatures (sigs : List Signature) (data : ByteBuf) : Option String :=
  sigs.findSome? (fun sig => eval_sig data sig)

/-- From `src/magic.rs`, fn `get_fstype_with_magic`. Opening `/dev/{device}` is the
only fallible step (`File::open` with `?`); the scan itself always succeeds. -/
def get_fstype_with_magic (devs : String → Option ByteBuf) (device : String) :
    Except String (Option String) :=
  match devs device with
  | none => Except.error ("failed to open /dev/" ++ device)
  | some data => Except.ok (scan_signatures signatures data)

/-! ### The aggregation engine (`src/combined.rs`) -/

/-- From `src/combined.rs`, struct `CombinedPartitionInfo`. -/
structure CombinedPartitionInfo where
  name : String
  size : Option Nat
  filesystem : Option String
  label : Option String
  mount_point : Option String
  removable : Option Bool
  uuids : Option (List String)
  fstab_entry : Option Fstab
  deriving Repr, DecidableEq, Inhabited

/-- From `src/combined.rs`, struct `CombinedDeviceInfo`. -/
structure CombinedDeviceInfo where
  name : String
  model : Option String
  size : Option Nat
  filesystem : Option String
  label : Option String
  mount_point : Option String
  removable : Option Bool
  uuids : Option (List String)
  fstab_entry : Option Fstab
  partitions : List CombinedPartitionInfo
  deriving Repr, DecidableEq, Inhabited

/-- The fstab-entry search predicate of `CombinedDeviceInfo::new`
(`src/combined.rs` lines 86-98 for devices, 127-139 for partitions): the
entry's `device` field equals `"UUID=" + first uuid` (when a uuid list is
present and non-empty) or `"LABEL=" + label` (when a label is present). -/
def fstab_match (uuids : Option (List String)) (label : Option String)
    (entry : Fstab) : Bool :=
  (((uuids.bind List.head?).map
      (fun uuid => ("UUID=" ++ uuid) == entry.device)).getD false)
  || ((label.map (fun l => ("LABEL=" ++ l) == entry.device)).getD false)

/-- The `match get_fstype_with_magic(..)` expression used at
`src/combined.rs` lines 76-82 and 145-151: an engine error is logged and
degraded to `None`. -/
def magic_fallback (devs : String → Option ByteBuf) (name : String) :
    Option String :=
  match get_fstype_with_magic devs name with
  | Except.ok fs_type => fs_type
  | Except.error _ => none

/-- The partition arm of `CombinedDeviceInfo::new`
(`src/combined.rs` lines 104-155), for one `SysBlockPartition`. -/
def build_partition (devs : String → Option ByteBuf) (dev_disk : DevDiskInfo)
    (proc_mounts : ProcMountsInfo) (fstab : FstabInfo)
    (part : SysBlockPartition) : CombinedPartitionInfo :=
  let p0 : CombinedPartitionInfo :=
    { name := part.name
      size := some part.info.size
      filesystem := none
      label := none
      mount_point := none
      removable := some part.info.removable
      uuids := none
      fstab_entry := none }
  let p1 :=
    match dev_disk.info.find? (fun d => d.name == part.name) with
    | some dev_part => { p0 with label := dev_part.label, uuids := dev_part.uuid }
    | none => p0
  let p2 :=
    match proc_mounts.info.find? (fun d => d.name == part.name) with
    | some proc_part =>
      { p1 with mount_point := some proc_part.mount_point,
                filesystem := some proc_part.fstype }
    | none => p1
  let p3 :=
    match fstab.info.find? (fun entry => fstab_match p2.uuids p2.label entry) with
    | some fstab_entry => { p2 with fstab_entry := some fstab_entry }
    | none => p2
  if p3.filesystem.isNone then
    { p3 with filesystem := magic_fallback devs part.name }
  else p3

/-- The device arm of `CombinedDeviceInfo::new`
(`src/combined.rs` lines 46-162), for one `SysBlockDevice`, including the
per-device partition list and its sort. -/
def build_device (devs : String → Option ByteBuf) (dev_disk : DevDiskInfo)
    (proc_mounts : ProcMountsInfo) (fstab : FstabInfo)
    (sys_block : SysBlockDevice) : CombinedDeviceInfo :=
  let d0 : CombinedDeviceInfo :=
    { name := sys_block.name
      model := some sys_block.info.model
      size := some sys_block.info.size
      filesystem := none
      label := none
      mount_point := none
      removable := some sys_block.info.removable
      uuids := none
      fstab_entry := none
      partitions := [] }
  let d1 :=
    match dev_disk.info.find? (fun d => d.name == sys_block.name) with
    | some dev_disk => { d0 with label := dev_disk.label, uuids := dev_disk.uuid }
    | none => d0
  let d2 :=
    match proc_mounts.info.find? (fun d => d.name == sys_block.name) with
    | some proc_mounts =>
      { d1 with mount_point := some proc_mounts.mount_point,
                filesystem := some proc_mounts.fstype }
    | none => d1
  let d3 :=
    if d2.filesystem.isNone && sys_block.part.isNone then
      { d2 with filesystem := magic_fallback devs sys_block.name }
    else d2
  let d4 :=
    match fstab.info.find? (fun entry => fstab_match d3.uuids d3.label entry) with
    | some fstab_entry => { d3 with fstab_entry := some fstab_entry }
    | none => d3
  let parts :=
    match sys_block.part with
    | some ps => ps.map (build_partition devs dev_disk proc_mounts fstab)
    | none => []
  { d4 with
      partitions := parts.mergeSort (fun a b => a.name ≤ b.name) }

/-- From `src/combined.rs`, fn `CombinedDeviceInfo::new`: build one combined device
per `/sys/block` record, then sort devices by name. `String` comparison in
Lean is code-point lexicographic, which coincides with Rust's byte-wise
comparison of UTF-8 strings. -/
def CombinedDeviceInfo.new (devs : String → Option ByteBuf)
    (sys_block : SysBlockInfo) (dev_disk : DevDiskInfo)
    (proc_mounts : ProcMountsInfo) (fstab : FstabInfo) :
    List CombinedDeviceInfo :=
  (sys_block.info.map (build_device devs dev_disk proc_mounts fstab)).mergeSort
    (fun a b => a.name ≤ b.name)

/-! ### Human-readable size formatting (`src/combined.rs`, fn
`readable_size_from`), modelled exactly over `ℚ` -/

/-- Round half to even, the rounding used both by the `u64 as f64` conversion
and by Rust's `{:.N}` float formatting. -/
def rhe (q : ℚ) : Int :=
  let f := ⌊q⌋
  let r := q - f
  if r < 1 / 2 then f
  else if 1 / 2 < r then f + 1
  else if f % 2 = 0 then f
  else f + 1

/-- The exact value of `n as f64` for `n : u64`: exact below `2^53`, otherwise
rounded to 53 significant bits (round half to even). The result is always an
integer. -/
def f64ofNat (n : Nat) : ℚ :=
  if n < 2 ^ 53 then (n : ℚ)
  else
    let e := n.log2 - 52
    (rhe ((n : ℚ) / 2 ^ e)) * 2 ^ e

/-- From `src/combined.rs` line 308. -/
def UNITS : List String := ["B", "KB", "MB", "GB", "TB", "PB"]

/-- The `while size >= 1024.0 && unit_index < UNITS.len() - 1` loop of
`readable_size_from` (`src/combined.rs` lines 312-315), with an explicit fuel
argument for structural recursion. Each iteration increments `unit_index` and
the guard requires `unit_index < 5`, so `5 - unit_index` units of fuel are
always enough; `size_loop` below supplies them, making this exactly the
source's while loop. Division of an `f64` at or above 1 by `1024.0` is exact
(the exponent decreases by 10), so the loop is exact rational arithmetic. -/
def size_loop_fuel : Nat → ℚ → Nat → ℚ × Nat
  | 0, size, unit_index => (size, unit_index)
  | fuel + 1, size, unit_index =>
    if 1024 ≤ size ∧ unit_index < 5 then
      size_loop_fuel fuel (size / 1024) (unit_index + 1)
    else (size, unit_index)

/-- The while loop of `readable_size_from`, starting at `unit_index`. -/
def size_loop (size : ℚ) (unit_index : Nat) : ℚ × Nat :=
  size_loop_fuel (5 - unit_index) size unit_index

/-- From `src/combined.rs`, fn `readable_size_from`. In the `unit_index == 0`
branch `size as u64` truncates (the value is a nonnegative integer below 1024
there); the `{:.0}` branch is only reached when `size.fract() == 0.0`, i.e.
when the value is a whole number, and prints that whole number; the `{:.1}`
branch rounds the exact value half to even at one decimal place. -/
def readable_size_from (size : Nat) : String :=
  match size_loop (f64ofNat size) 0 with
  | (s, unit_index) =>
    if unit_index = 0 then
      toString (⌊s⌋.toNat) ++ UNITS.getD unit_index ""
    else if s - ⌊s⌋ = 0 then
      toString (⌊s⌋.toNat) ++ UNITS.getD unit_index ""
    else
      let t := (rhe (s * 10)).toNat
      toString (t / 10) ++ "." ++ toString (t % 10) ++ UNITS.getD unit_index ""

/-! ### Rendering of common fields (`src/combined.rs`, fn
`format_common_fields`) -/

/-- The UUID section of `format_common_fields` (`src/combined.rs` lines
260-267), reached when `uuids` is present. The source indexes `uuids[0]` (and,
when the length is not exactly 1, `uuids[1]`) without a bounds guard; an
out-of-bounds index panics, modelled as `none`. -/
def format_uuids (indent : String) (uuids : List String) : Option String :=
  if uuids.length == 1 then
    (uuids.get? 0).map (fun u => indent ++ "• UUID: " ++ u ++ "\n")
  else
    (uuids.get? 0).bind (fun u0 =>
      (uuids.get? 1).map (fun u1 =>
        indent ++ "• UUID: " ++ u0 ++ " (" ++ u1 ++ ")\n"))

/-- The fstab block of `format_common_fields` (`src/combined.rs` lines
269-296). -/
def format_fstab_block (indent : String) (fstab_entry : Fstab) : String :=
  let extra_indent := "  "
  indent ++ "• Fstab Entry:\n"
  ++ indent ++ extra_indent ++ "• Device: " ++ fstab_entry.device ++ "\n"
  ++ indent ++ extra_indent ++ "• Mount Point: " ++ fstab_entry.mount_point ++ "\n"
  ++ indent ++ extra_indent ++ "• Filesystem: " ++ fstab_entry.fs_type ++ "\n"
  ++ indent ++ extra_indent ++ "• Options:\n"
  ++ String.join (fstab_entry.options.map
      (fun option => indent ++ extra_indent ++ extra_indent ++ "• " ++ option ++ "\n"))
  ++ indent ++ extra_indent ++ "• Dump Frequency: " ++ toString fstab_entry.dump_freq ++ "\n"
  ++ indent ++ extra_indent ++ "• fsck Pass: " ++ toString fstab_entry.fsck_pass ++ "\n"

/-- From `src/combined.rs`, fn `format_common_fields`. Produces the rendered text,
or `none` when the UUID section panics on an out-of-bounds index (the only
possible panic; every other line is an infallible write). -/
def format_common_fields (indent : String) (size : Option Nat)
    (filesystem : Option String) (label : Option String)
    (mount_point : Option String) (removable : Option Bool)
    (uuids : Option (List String)) (fstab_entry : Option Fstab) :
    Option String :=
  let size_part :=
    match size with
    | some size => indent ++ "• Size: " ++ readable_size_from size ++ "\n"
    | none => ""
  let filesystem_part :=
    match filesystem with
    | some filesystem => indent ++ "• Filesystem: " ++ filesystem ++ "\n"
    | none => ""
  let label_part :=
    match label with
    | some label => indent ++ "• Label: " ++ label ++ "\n"
    | none => ""
  let mount_part :=
    match mount_point with
    | some mount_point => indent ++ "• Mount Point: " ++ mount_point ++ "\n"
    | none => ""
  let removable_part :=
    match removable with
    | some removable =>
      indent ++ "• Removable: " ++ (if removable then "Yes" else "No") ++ "\n"
    | none => ""
  let uuid_part :=
    match uuids with
    | some uuids => format_uuids indent uuids
    | none => some ""
  let fstab_part :=
    match fstab_entry with
    | some fstab_entry => format_fstab_block indent fstab_entry
    | none => ""
  uuid_part.map (fun uuid_text =>
    size_part ++ filesystem_part ++ label_part ++ mount_part ++ removable_part
    ++ uuid_text ++ fstab_part)

/-! ### Concrete device contents used by the detection-engine claims -/

/-- A 4096-byte device: `"FAT32   "` at offset 0x52, boot-sector marker
`0x55 0xAA` at bytes 510-511, all other bytes zero. -/
def fat32buf : ByteBuf :=
  { len := 4096,
    byte := fun i =>
      if 0x52 ≤ i ∧ i < 0x5A then (fs_magic.FAT32_MAGIC).getD (i - 0x52) 0
      else if i = 510 then 0x55
      else if i = 511 then 0xAA
      else 0 }

/-- A 1082-byte device: bytes `0x53 0xEF` at offset 1080, all other bytes
zero. -/
def ext4buf : ByteBuf :=
  { len := 1082,
    byte := fun i => if i = 1080 then 0x53 else if i = 1081 then 0xEF else 0 }

/-- A 4096-byte device: `"SWAPSPACE2"` at byte 4086, all other bytes zero. -/
def swapbuf : ByteBuf :=
  { len := 4096,
    byte := fun i =>
      if 4086 ≤ i ∧ i < 4096 then (fs_magic.SWAP_MAGIC_2).getD (i - 4086) 0
      else 0 }

/-! ### Detection-engine lemmas -/

/-- Every rule of the fixed table reads at least 4 bytes, so on a device
shorter than that every probe's read fails and is skipped. -/
theorem eval_sig_none_of_short (data : ByteBuf) (h : data.len < 4) :
    ∀ sig ∈ signatures, eval_sig data sig = none := by
  intro sig hsig
  simp only [signatures, List.mem_cons, List.not_mem_nil, or_false] at hsig
  rcases hsig with h1 | h1 | h1 | h1 | h1 | h1 | h1 | h1 | h1 | h1 | h1 | h1 | h1 <;>
    subst h1 <;>
    simp only [eval_sig] <;>
    rw [if_pos (by simp [fs_magic.FAT12_MAGIC, fs_magic.FAT16_MAGIC,
      fs_magic.FAT32_MAGIC, fs_magic.NTFS_MAGIC, fs_magic.EXFAT_MAGIC,
      fs_magic.SWAP_MAGIC, fs_magic.SWAP_MAGIC_2, fs_magic.ISO9660_MAGIC,
      str_bytes] <;> omega)]

/-- Claim C5: filesystem detection returns an I/O error if and only if the
device node cannot be opened; once open, a failed seek or short read while
evaluating any single rule is treated as that rule not matching and never
aborts the scan (in particular a device too short for every probe still
scans successfully), and if no rule matches the result is `Ok(None)`, not an
error. -/
theorem C5_detection_error_policy :
    ∀ (devs : String → Option ByteBuf) (device : String),
      ((∃ e, get_fstype_with_magic devs device = Except.error e) ↔
        devs device = none) ∧
      (∀ data, devs device = some data →
        (∀ sig ∈ signatures, eval_sig data sig = none) →
        get_fstype_with_magic devs device = Except.ok none) ∧
      (∀ data, devs device = some data → data.len < 4 →
        get_fstype_with_magic devs device = Except.ok none) := by
  intro devs device
  have hok : ∀ data, devs device = some data →
      (∀ sig ∈ signatures, eval_sig data sig = none) →
      get_fstype_with_magic devs device = Except.ok none := by
    intro data hdev hall
    simp [get_fstype_with_magic, hdev, scan_signatures,
      List.findSome?_eq_none_iff.mpr hall]
  refine ⟨?_, hok, ?_⟩
  · cases hd : devs device <;> simp [get_fstype_with_magic, hd]
  · intro data hdev hlen
    exact hok data hdev (eval_sig_none_of_short data hlen)

/-- Witness for C5: a device of length 0 (every read fails) scans to
`Ok(None)` rather than an error. -/
theorem C5_detection_error_policy_witness :
    get_fstype_with_magic (fun _ => some (ByteBuf.mk 0 (fun _ => 0))) "sda" =
      Except.ok none :=
  (C5_detection_error_policy (fun _ => some (ByteBuf.mk 0 (fun _ => 0)))
      "sda").2.2 (ByteBuf.mk 0 (fun _ => 0)) rfl (by decide)

/-- Claim C6: the detection engine evaluates its fixed rule table
top-to-bottom with first match winning (a matching rule after any run of
non-matching rules decides the result, later rules are not consulted), and
in particular: `"FAT32   "` at offset 0x52 plus `0x55 0xAA` at bytes 510-511
with no earlier rule matching detects `vfat`; bytes `0x53 0xEF` at offset
1080 (little-endian `0xEF53`) with no earlier rule matching detect `ext4`;
`"SWAPSPACE2"` at byte 4086 detects `swap`; numeric magics are read
little-endian. -/
theorem C6_signature_table :
    (∀ (data : ByteBuf) (pre post : List Signature) (sig : Signature)
        (s : String),
        (∀ s2 ∈ pre, eval_sig data s2 = none) →
        eval_sig data sig = some s →
        scan_signatures (pre ++ sig :: post) data = some s) ∧
    scan_signatures signatures fat32buf = some ("vfat") ∧
    scan_signatures signatures ext4buf = some ("ext4") ∧
    scan_signatures signatures swapbuf = some ("swap") ∧
    u_from_le [0x53, 0xEF] = 0xEF53 := by
  refine ⟨?_, by decide, by decide, by decide, by decide⟩
  intro data pre post sig s hpre hsig
  unfold scan_signatures
  rw [List.findSome?_append, List.findSome?_eq_none_iff.mpr hpre,
    Option.none_or, List.findSome?_cons_of_isSome _ (by simp [hsig]), hsig]

/-- Witness for C6: the ext4 rule alone, with an empty run of earlier rules,
detects `ext4` on the concrete buffer. -/
theorem C6_signature_table_witness :
    scan_signatures
      ([] ++ (Signature.mk (Detection.magicU16 1080 fs_magic.EXT4_MAGIC)
        FsType.Ext4) :: []) ext4buf = some ("ext4") :=
  C6_signature_table.1 ext4buf [] []
    (Signature.mk (Detection.magicU16 1080 fs_magic.EXT4_MAGIC) FsType.Ext4)
    "ext4" (by simp) (by decide)

/-! ### Size-formatting lemmas -/

theorem readable_1048576 : readable_size_from 1048576 = "1MB" := by
  have h : size_loop (f64ofNat 1048576) 0 = (1, 2) := by
    norm_num [size_loop, size_loop_fuel, f64ofNat]
  rw [readable_size_from, h]
  norm_num [UNITS]
  decide

theorem readable_1536 : readable_size_from 1536 = "1.5KB" := by
  have h : size_loop (f64ofNat 1536) 0 = (3 / 2, 1) := by
    norm_num [size_loop, size_loop_fuel, f64ofNat]
  rw [readable_size_from, h]
  norm_num [UNITS, rhe]
  decide

theorem int_mul_pow_den (z : Int) (e : Nat) : ((z : ℚ) * 2 ^ e).den = 1 := by
  have h : ((z : ℚ) * 2 ^ e) = ((z * 2 ^ e : Int) : ℚ) := by push_cast; ring
  rw [h, Rat.den_intCast]

/-- The value computed by `f64ofNat` is always an integer (exact for small
inputs, an integer multiple of a power of two otherwise). -/
theorem f64ofNat_den (n : Nat) : (f64ofNat n).den = 1 := by
  rw [f64ofNat]
  split
  · exact Rat.den_natCast n
  · exact int_mul_pow_den (rhe ((n : ℚ) / 2 ^ (n.log2 - 52))) (n.log2 - 52)

/-- Rust `size.fract() == 0.0` is exactly "the value is a whole number". -/
theorem sub_floor_eq_zero_iff_den (q : ℚ) : q - ⌊q⌋ = 0 ↔ q.den = 1 := by
  constructor
  · intro h
    have hq : q = (⌊q⌋ : ℚ) := by linarith
    rw [hq, Rat.den_intCast]
  · intro h
    have hq : ((q.num : ℚ)) = q := (Rat.den_eq_one_iff q).mp h
    rw [← hq, Int.floor_intCast]
    ring

/-- Graph of the division loop: it stops at the first unit index `k` (at most
5) where the value has dropped below 1024, having divided once per earlier
index, each time while the running value was still at least 1024. -/
theorem size_loop_fuel_spec :
    ∀ (fuel : Nat) (x : ℚ) (i : Nat), i + fuel = 5 →
      ∃ k, i ≤ k ∧ k ≤ 5 ∧
        size_loop_fuel fuel x i = (x / 1024 ^ (k - i), k) ∧
        (∀ j, j < k - i → 1024 ≤ x / 1024 ^ j) ∧
        (k = 5 ∨ x / 1024 ^ (k - i) < 1024) := by
  intro fuel
  induction fuel with
  | zero =>
    intro x i hi
    refine ⟨i, le_refl i, by omega, by simp [size_loop_fuel], ?_, Or.inl (by omega)⟩
    intro j hj
    omega
  | succ fuel ih =>
    intro x i hi
    by_cases hx : 1024 ≤ x
    · have hstep : size_loop_fuel (fuel + 1) x i =
          size_loop_fuel fuel (x / 1024) (i + 1) := by
        simp [size_loop_fuel, hx, (by omega : i < 5)]
      obtain ⟨k, hik, hk5, heq, hdiv, hstop⟩ := ih (x / 1024) (i + 1) (by omega)
      have hpow : ∀ m : Nat, x / 1024 / 1024 ^ m = x / 1024 ^ (m + 1) := by
        intro m
        rw [div_div, ← pow_succ']
      refine ⟨k, by omega, hk5, ?_, ?_, ?_⟩
      · have hexp : k - (i + 1) + 1 = k - i := by omega
        rw [hstep, heq, hpow, hexp]
      · intro j hj
        cases j with
        | zero => simpa using hx
        | succ j2 =>
          have h2 := hdiv j2 (by omega)
          rw [hpow] at h2
          exact h2
      · rcases hstop with h5 | hlt
        · exact Or.inl h5
        · refine Or.inr ?_
          rw [hpow] at hlt
          have hexp : k - (i + 1) + 1 = k - i := by omega
          rw [hexp] at hlt
          exact hlt
    · refine ⟨i, le_refl i, by omega, by simp [size_loop_fuel, hx], ?_, Or.inr ?_⟩
      · intro j hj
        omega
      · simpa using lt_of_not_le hx

/-- Lemma `size_loop_fuel_spec` at the real entry point (fuel 5, index 0). -/
theorem size_loop_spec (x : ℚ) :
    ∃ k, k ≤ 5 ∧ size_loop x 0 = (x / 1024 ^ k, k) ∧
      (∀ j, j < k → 1024 ≤ x / 1024 ^ j) ∧ (k = 5 ∨ x / 1024 ^ k < 1024) := by
  obtain ⟨k, _, hk5, heq, hdiv, hstop⟩ := size_loop_fuel_spec 5 x 0 rfl
  rw [size_loop]
  simp only [Nat.sub_zero] at heq hdiv hstop
  exact ⟨k, hk5, heq, hdiv, hstop⟩

/-- Claim C7, corrected: a 512-byte-sector count of 2048 converts to 1048576
bytes and renders as `"1MB"`; a count of 3 converts to 1536 bytes, and since
1536 is at least 1024 it is promoted to `"1.5KB"` (not rendered as
`"1536B"`). -/
theorem C7_size_conversion :
    read_size 2048 = 1048576 ∧
    readable_size_from (read_size 2048) = "1MB" ∧
    read_size 3 = 1536 ∧
    readable_size_from (read_size 3) = "1.5KB" :=
  ⟨by decide, readable_1048576, by decide, readable_1536⟩

/-- Counterexample to claim C7 as stated: 1536 bytes does not render as
`"1536B"` (it renders as `"1.5KB"`, the loop divides because 1536 ≥ 1024). -/
theorem C7_counterexample :
    read_size 3 = 1536 ∧
    ¬ (readable_size_from (read_size 3) = "1536B") ∧
    readable_size_from (read_size 3) = "1.5KB" := by
  refine ⟨by decide, ?_, readable_1536⟩
  show ¬ (readable_size_from 1536 = "1536B")
  rw [readable_1536]
  decide

/-- Claim C8: for every u64 byte count, the formatter divides repeatedly by
1024 while the value is at least 1024 and a larger unit among B/KB/MB/GB/TB/PB
remains (unit index at most 5), renders with zero decimal places when the
resulting value is a whole number and otherwise exactly one decimal place,
and never drops below the `"B"` unit (the chosen unit is always one of the
six). -/
theorem C8_readable_size (n : Nat) (h : n < 2 ^ 64) :
    ∃ k, k ≤ 5 ∧
      size_loop (f64ofNat n) 0 = (f64ofNat n / 1024 ^ k, k) ∧
      (∀ j, j < k → 1024 ≤ f64ofNat n / 1024 ^ j) ∧
      (k = 5 ∨ f64ofNat n / 1024 ^ k < 1024) ∧
      UNITS.getD k "" ∈ UNITS ∧
      ((f64ofNat n / 1024 ^ k).den = 1 →
        ∃ a : Nat, readable_size_from n = toString a ++ UNITS.getD k "") ∧
      ((f64ofNat n / 1024 ^ k).den ≠ 1 →
        ∃ a b : Nat, b ≤ 9 ∧
          readable_size_from n =
            toString a ++ "." ++ toString b ++ UNITS.getD k "") := by
  obtain ⟨k, hk5, heq, hdiv, hstop⟩ := size_loop_spec (f64ofNat n)
  refine ⟨k, hk5, heq, hdiv, hstop, by interval_cases k <;> decide, ?_, ?_⟩
  · intro hden
    rw [readable_size_from, heq]
    by_cases hk0 : k = 0
    · subst hk0
      exact ⟨⌊f64ofNat n / 1024 ^ 0⌋.toNat, rfl⟩
    · simp only [if_neg hk0, if_pos ((sub_floor_eq_zero_iff_den _).mpr hden)]
      exact ⟨⌊f64ofNat n / 1024 ^ k⌋.toNat, rfl⟩
  · intro hden
    have hk0 : k ≠ 0 := by
      intro h0
      subst h0
      apply hden
      simpa using f64ofNat_den n
    rw [readable_size_from, heq]
    simp only [if_neg hk0,
      if_neg (fun hc => hden ((sub_floor_eq_zero_iff_den _).mp hc))]
    exact ⟨(rhe ((f64ofNat n / 1024 ^ k) * 10)).toNat / 10,
      (rhe ((f64ofNat n / 1024 ^ k) * 10)).toNat % 10, by omega, rfl⟩

/-- Witness for C8 at byte count 1536. -/
theorem C8_readable_size_witness :
    ∃ k, k ≤ 5 ∧
      size_loop (f64ofNat 1536) 0 = (f64ofNat 1536 / 1024 ^ k, k) ∧
      (∀ j, j < k → 1024 ≤ f64ofNat 1536 / 1024 ^ j) ∧
      (k = 5 ∨ f64ofNat 1536 / 1024 ^ k < 1024) ∧
      UNITS.getD k "" ∈ UNITS ∧
      ((f64ofNat 1536 / 1024 ^ k).den = 1 →
        ∃ a : Nat, readable_size_from 1536 = toString a ++ UNITS.getD k "") ∧
      ((f64ofNat 1536 / 1024 ^ k).den ≠ 1 →
        ∃ a b : Nat, b ≤ 9 ∧
          readable_size_from 1536 =
            toString a ++ "." ++ toString b ++ UNITS.getD k "") :=
  C8_readable_size 1536 (by norm_num)

/-! ### Aggregation lemmas: field characterizations of `build_partition` -/

theorem build_partition_name (devs : String → Option ByteBuf) (dd : DevDiskInfo)
    (pm : ProcMountsInfo) (fs : FstabInfo) (p : SysBlockPartition) :
    (build_partition devs dd pm fs p).name = p.name := by
  simp only [build_partition]
  cases h1 : List.find? (fun d => d.name == p.name) dd.info <;>
    cases h2 : List.find? (fun d => d.name == p.name) pm.info <;>
      (repeat' split) <;> simp_all

theorem build_partition_label (devs : String → Option ByteBuf) (dd : DevDiskInfo)
    (pm : ProcMountsInfo) (fs : FstabInfo) (p : SysBlockPartition) :
    (build_partition devs dd pm fs p).label =
      (dd.info.find? (fun d => d.name == p.name)).bind (fun r => r.label) := by
  simp only [build_partition]
  cases h1 : List.find? (fun d => d.name == p.name) dd.info <;>
    cases h2 : List.find? (fun d => d.name == p.name) pm.info <;>
      (repeat' split) <;> simp_all

theorem build_partition_uuids (devs : String → Option ByteBuf) (dd : DevDiskInfo)
    (pm : ProcMountsInfo) (fs : FstabInfo) (p : SysBlockPartition) :
    (build_partition devs dd pm fs p).uuids =
      (dd.info.find? (fun d => d.name == p.name)).bind (fun r => r.uuid) := by
  simp only [build_partition]
  cases h1 : List.find? (fun d => d.name == p.name) dd.info <;>
    cases h2 : List.find? (fun d => d.name == p.name) pm.info <;>
      (repeat' split) <;> simp_all

theorem build_partition_filesystem (devs : String → Option ByteBuf)
    (dd : DevDiskInfo) (pm : ProcMountsInfo) (fs : FstabInfo)
    (p : SysBlockPartition) :
    (build_partition devs dd pm fs p).filesystem =
      match pm.info.find? (fun d => d.name == p.name) with
      | some m => some m.fstype
      | none => magic_fallback devs p.name := by
  simp only [build_partition]
  cases h1 : List.find? (fun d => d.name == p.name) dd.info <;>
    cases h2 : List.find? (fun d => d.name == p.name) pm.info <;>
      (repeat' split) <;> simp_all

theorem build_partition_fstab (devs : String → Option ByteBuf)
    (dd : DevDiskInfo) (pm : ProcMountsInfo) (fs : FstabInfo)
    (p : SysBlockPartition) :
    (build_partition devs dd pm fs p).fstab_entry =
      fs.info.find? (fun e =>
        fstab_match
          ((dd.info.find? (fun d => d.name == p.name)).bind (fun r => r.uuid))
          ((dd.info.find? (fun d => d.name == p.name)).bind (fun r => r.label))
          e) := by
  simp only [build_partition]
  cases h1 : List.find? (fun d => d.name == p.name) dd.info <;>
    cases h2 : List.find? (fun d => d.name == p.name) pm.info <;>
      (repeat' split) <;> simp_all <;>
        exact (List.find?_eq_none.mpr (by simp_all)).symm

/-! ### Aggregation lemmas: field characterizations of `build_device` -/

theorem build_device_name (devs : String → Option ByteBuf) (dd : DevDiskInfo)
    (pm : ProcMountsInfo) (fs : FstabInfo) (sb : SysBlockDevice) :
    (build_device devs dd pm fs sb).name = sb.name := by
  simp only [build_device]
  cases h1 : List.find? (fun d => d.name == sb.name) dd.info <;>
    cases h2 : List.find? (fun d => d.name == sb.name) pm.info <;>
      cases hp : sb.part <;>
        (repeat' split) <;> simp_all

theorem build_device_label (devs : String → Option ByteBuf) (dd : DevDiskInfo)
    (pm : ProcMountsInfo) (fs : FstabInfo) (sb : SysBlockDevice) :
    (build_device devs dd pm fs sb).label =
      (dd.info.find? (fun d => d.name == sb.name)).bind (fun r => r.label) := by
  simp only [build_device]
  cases h1 : List.find? (fun d => d.name == sb.name) dd.info <;>
    cases h2 : List.find? (fun d => d.name == sb.name) pm.info <;>
      cases hp : sb.part <;>
        (repeat' split) <;> simp_all

theorem build_device_uuids (devs : String → Option ByteBuf) (dd : DevDiskInfo)
    (pm : ProcMountsInfo) (fs : FstabInfo) (sb : SysBlockDevice) :
    (build_device devs dd pm fs sb).uuids =
      (dd.info.find? (fun d => d.name == sb.name)).bind (fun r => r.uuid) := by
  simp only [build_device]
  cases h1 : List.find? (fun d => d.name == sb.name) dd.info <;>
    cases h2 : List.find? (fun d => d.name == sb.name) pm.info <;>
      cases hp : sb.part <;>
        (repeat' split) <;> simp_all

theorem build_device_filesystem (devs : String → Option ByteBuf)
    (dd : DevDiskInfo) (pm : ProcMountsInfo) (fs : FstabInfo)
    (sb : SysBlockDevice) :
    (build_device devs dd pm fs sb).filesystem =
      match pm.info.find? (fun d => d.name == sb.name) with
      | some m => some m.fstype
      | none =>
        if sb.part.isNone then magic_fallback devs sb.name else none := by
  simp only [build_device]
  cases h1 : List.find? (fun d => d.name == sb.name) dd.info <;>
    cases h2 : List.find? (fun d => d.name == sb.name) pm.info <;>
      cases hp : sb.part <;>
        (repeat' split) <;> simp_all

theorem build_device_fstab (devs : String → Option ByteBuf) (dd : DevDiskInfo)
    (pm : ProcMountsInfo) (fs : FstabInfo) (sb : SysBlockDevice) :
    (build_device devs dd pm fs sb).fstab_entry =
      fs.info.find? (fun e =>
        fstab_match
          ((dd.info.find? (fun d => d.name == sb.name)).bind (fun r => r.uuid))
          ((dd.info.find? (fun d => d.name == sb.name)).bind (fun r => r.label))
          e) := by
  simp only [build_device]
  cases h1 : List.find? (fun d => d.name == sb.name) dd.info <;>
    cases h2 : List.find? (fun d => d.name == sb.name) pm.info <;>
      cases hp : sb.part <;>
        (repeat' split) <;> simp_all <;>
          exact (List.find?_eq_none.mpr (by simp_all)).symm

theorem build_device_partitions (devs : String → Option ByteBuf)
    (dd : DevDiskInfo) (pm : ProcMountsInfo) (fs : FstabInfo)
    (sb : SysBlockDevice) :
    (build_device devs dd pm fs sb).partitions =
      (match sb.part with
        | some ps => ps.map (build_partition devs dd pm fs)
        | none => []).mergeSort (fun a b => a.name ≤ b.name) := rfl

/-! ### Membership in the aggregated output -/

theorem mem_new_iff (devs : String → Option ByteBuf) (sys : SysBlockInfo)
    (dd : DevDiskInfo) (pm : ProcMountsInfo) (fs : FstabInfo)
    (dev : CombinedDeviceInfo) :
    dev ∈ CombinedDeviceInfo.new devs sys dd pm fs ↔
      ∃ sb ∈ sys.info, build_device devs dd pm fs sb = dev := by
  unfold CombinedDeviceInfo.new
  rw [List.mem_mergeSort, List.mem_map]

theorem mem_partitions_iff (devs : String → Option ByteBuf) (dd : DevDiskInfo)
    (pm : ProcMountsInfo) (fs : FstabInfo) (sb : SysBlockDevice)
    (p : CombinedPartitionInfo) :
    p ∈ (build_device devs dd pm fs sb).partitions ↔
      ∃ ps, sb.part = some ps ∧
        ∃ x ∈ ps, build_partition devs dd pm fs x = p := by
  rw [build_device_partitions, List.mem_mergeSort]
  cases hp : sb.part <;> simp

/-! ### Sortedness helper -/

theorem pairwise_name_mergeSort {α : Type} (f : α → String) (l : List α) :
    (l.mergeSort (fun a b => f a ≤ f b)).Pairwise (fun a b => f a ≤ f b) := by
  have hs := @List.sorted_mergeSort _ (fun a b => decide (f a ≤ f b))
    (fun a b c h1 h2 => by
      simp only [decide_eq_true_eq] at h1 h2 ⊢
      exact le_trans h1 h2)
    (fun a b => by
      simp only [Bool.or_eq_true, decide_eq_true_eq]
      exact le_total (f a) (f b))
    l
  exact hs.imp (fun h => by simpa using h)

/-! ### Concrete fixtures used by the claim witnesses -/

/-- An environment in which every device node opens and carries the ext4
byte signature. -/
def wdevs : String → Option ByteBuf := fun _ => some ext4buf

def wsb : SysBlockDevice :=
  { name := "sda",
    info := { model := "TestModel", removable := false, size := 1048576 },
    part := none }

def wsys : SysBlockInfo := { info := [wsb] }

def wdd : DevDiskInfo := { info := [] }

def wpmrec : ProcMounts := { name := "sda", mount_point := "/", fstype := "vfat" }

def wpm : ProcMountsInfo := { info := [wpmrec] }

def wpm_empty : ProcMountsInfo := { info := [] }

def wfs : FstabInfo := { info := [] }

def wpart : SysBlockPartition :=
  { name := "sda1", info := { size := 2048, removable := false } }

def w3dd : DevDiskInfo :=
  { info := [{ name := "sda", label := some ("other"), uuid := some (["AAAA"]) }] }

def w3entry : Fstab :=
  { device := "UUID=AAAA", mount_point := "/mnt", fs_type := "ext4",
    options := ["rw"], dump_freq := 0, fsck_pass := 2 }

def w3fs : FstabInfo := { info := [w3entry] }

def wsbA : SysBlockDevice :=
  { name := "sda", info := { model := "A", removable := false, size := 512 },
    part := none }

def wsbB : SysBlockDevice :=
  { name := "sdb", info := { model := "B", removable := false, size := 512 },
    part := none }

def w4ab : SysBlockInfo := { info := [wsbA, wsbB] }

def w4ba : SysBlockInfo := { info := [wsbB, wsbA] }

def w10dd : DevDiskInfo :=
  { info := [{ name := "sda", label := none, uuid := some ([]) }] }

/-! ### Claims about the aggregation -/

/-- Claim C1: for every device (and every partition) whose name matches a
live-mount record, the aggregation sets the entity's filesystem from that
record; detection is only attempted when the field is still absent, so the
live-mount value is the one in the output for every detection environment
`devs`, even one whose byte signature would report a different type. -/
theorem C1_live_mount_priority :
    ∀ (devs : String → Option ByteBuf) (sys : SysBlockInfo) (dd : DevDiskInfo)
      (pm : ProcMountsInfo) (fs : FstabInfo),
      ∀ dev ∈ CombinedDeviceInfo.new devs sys dd pm fs,
        (∀ m, pm.info.find? (fun r => r.name == dev.name) = some m →
          dev.filesystem = some m.fstype) ∧
        (∀ p ∈ dev.partitions, ∀ m,
          pm.info.find? (fun r => r.name == p.name) = some m →
            p.filesystem = some m.fstype) := by
  intro devs sys dd pm fs dev hdev
  obtain ⟨sb, hsb, rfl⟩ := (mem_new_iff devs sys dd pm fs dev).mp hdev
  constructor
  · intro m hm
    simp only [build_device_name] at hm
    rw [build_device_filesystem, hm]
  · intro p hp m hm
    obtain ⟨ps, hps, x, hx, rfl⟩ := (mem_partitions_iff devs dd pm fs sb p).mp hp
    simp only [build_partition_name] at hm
    rw [build_partition_filesystem, hm]

unseal List.merge List.mergeSort in
/-- Witness for C1: a device mounted as vfat keeps `vfat` although the byte
probe environment would report ext4. -/
theorem C1_live_mount_priority_witness :
    ((CombinedDeviceInfo.new wdevs wsys wdd wpm wfs).getD 0 default).filesystem =
      some (wpmrec.fstype) :=
  ((C1_live_mount_priority wdevs wsys wdd wpm wfs
      ((CombinedDeviceInfo.new wdevs wsys wdd wpm wfs).getD 0 default)
      (by decide)).1 wpmrec (by decide))

/-- Claim C2: the magic-detection fallback decides a whole device's
filesystem only when its filesystem is still absent and the device has no
child partitions (with partitions present the field simply stays absent,
whatever the device bytes are), whereas a partition's absent filesystem is
always decided by the fallback. -/
theorem C2_fallback_condition :
    ∀ (devs : String → Option ByteBuf) (dd : DevDiskInfo) (pm : ProcMountsInfo)
      (fs : FstabInfo) (sb : SysBlockDevice) (p : SysBlockPartition),
      (pm.info.find? (fun r => r.name == sb.name) = none →
        ((sb.part = none →
          (build_device devs dd pm fs sb).filesystem =
            magic_fallback devs sb.name) ∧
         (∀ ps, sb.part = some ps →
          (build_device devs dd pm fs sb).filesystem = none))) ∧
      (pm.info.find? (fun r => r.name == p.name) = none →
        (build_partition devs dd pm fs p).filesystem =
          magic_fallback devs p.name) := by
  intro devs dd pm fs sb p
  constructor
  · intro hnone
    constructor
    · intro hpart
      rw [build_device_filesystem, hnone, hpart]
      rfl
    · intro ps hps
      rw [build_device_filesystem, hnone, hps]
      rfl
  · intro hnone
    rw [build_partition_filesystem, hnone]

/-- Witness for C2: an unmounted, partitionless device gets the fallback
result, here `ext4` from the byte signature. -/
theorem C2_fallback_condition_witness :
    (build_device wdevs wdd wpm_empty wfs wsb).filesystem =
      magic_fallback wdevs (wsb.name) ∧
    magic_fallback wdevs (wsb.name) = some ("ext4") :=
  ⟨((C2_fallback_condition wdevs wdd wpm_empty wfs wsb wpart).1 (by decide)).1
      rfl,
    by decide⟩

/-- Claim C3: for every entity the attached static-mount record is the first
one whose `device` field matches `"UUID=" + first uuid` or `"LABEL=" + label`;
an entity with absent or empty uuid list never matches by UUID; and a
UUID match suffices on its own, whatever the label is. -/
theorem C3_fstab_crossref :
    ∀ (devs : String → Option ByteBuf) (sys : SysBlockInfo) (dd : DevDiskInfo)
      (pm : ProcMountsInfo) (fs : FstabInfo),
      (∀ dev ∈ CombinedDeviceInfo.new devs sys dd pm fs,
        dev.fstab_entry =
          fs.info.find? (fun e => fstab_match dev.uuids dev.label e)) ∧
      (∀ dev ∈ CombinedDeviceInfo.new devs sys dd pm fs,
        ∀ p ∈ dev.partitions,
          p.fstab_entry =
            fs.info.find? (fun e => fstab_match p.uuids p.label e)) ∧
      (∀ (uuids : Option (List String)) (label : Option String) (e : Fstab),
        fstab_match uuids label e = true ↔
          ((∃ u t, uuids = some (u :: t) ∧ e.device = "UUID=" ++ u) ∨
            (∃ l, label = some l ∧ e.device = "LABEL=" ++ l))) := by
  intro devs sys dd pm fs
  refine ⟨?_, ?_, ?_⟩
  · intro dev hdev
    obtain ⟨sb, hsb, rfl⟩ := (mem_new_iff devs sys dd pm fs dev).mp hdev
    simp only [build_device_fstab, build_device_uuids, build_device_label]
  · intro dev hdev p hp
    obtain ⟨sb, hsb, rfl⟩ := (mem_new_iff devs sys dd pm fs dev).mp hdev
    obtain ⟨ps, hps, x, hx, rfl⟩ := (mem_partitions_iff devs dd pm fs sb p).mp hp
    simp only [build_partition_fstab, build_partition_uuids,
      build_partition_label]
  · intro uuids label e
    cases uuids with
    | none =>
      cases label with
      | none => simp [fstab_match]
      | some l =>
        simp [fstab_match, beq_iff_eq]
        exact eq_comm
    | some us =>
      cases us with
      | nil =>
        cases label with
        | none => simp [fstab_match]
        | some l =>
          simp [fstab_match, beq_iff_eq]
          exact eq_comm
      | cons u t =>
        cases label with
        | none =>
          simp [fstab_match, beq_iff_eq]
          exact eq_comm
        | some l =>
          simp [fstab_match, beq_iff_eq]
          exact or_congr eq_comm eq_comm

unseal List.merge List.mergeSort in
/-- Witness for C3: a record `UUID=AAAA` is attached to the device with
first uuid `AAAA` although its label (`other`) matches nothing. -/
theorem C3_fstab_crossref_witness :
    ((CombinedDeviceInfo.new wdevs wsys w3dd wpm w3fs).getD 0 default).fstab_entry =
      some (w3entry) :=
  ((C3_fstab_crossref wdevs wsys w3dd wpm w3fs).1
      ((CombinedDeviceInfo.new wdevs wsys w3dd wpm w3fs).getD 0 default)
      (by decide)).trans (by decide)

/-- Claim C4: the output device list is sorted by name (code-point
lexicographic, which is byte-wise on UTF-8), within each device the
partition list is sorted the same way, and the sequence of output names does
not depend on the order of the topology records. -/
theorem C4_sorted_output :
    ∀ (devs : String → Option ByteBuf) (sys : SysBlockInfo) (dd : DevDiskInfo)
      (pm : ProcMountsInfo) (fs : FstabInfo),
      (CombinedDeviceInfo.new devs sys dd pm fs).Pairwise
        (fun a b => a.name ≤ b.name) ∧
      (∀ dev ∈ CombinedDeviceInfo.new devs sys dd pm fs,
        dev.partitions.Pairwise (fun a b => a.name ≤ b.name)) ∧
      (∀ sys2 : SysBlockInfo, List.Perm sys2.info sys.info →
        (CombinedDeviceInfo.new devs sys2 dd pm fs).map (fun d => d.name) =
          (CombinedDeviceInfo.new devs sys dd pm fs).map (fun d => d.name)) := by
  intro devs sys dd pm fs
  refine ⟨pairwise_name_mergeSort _ _, ?_, ?_⟩
  · intro dev hdev
    obtain ⟨sb, hsb, rfl⟩ := (mem_new_iff devs sys dd pm fs dev).mp hdev
    rw [build_device_partitions]
    exact pairwise_name_mergeSort _ _
  · intro sys2 hperm
    have hperm2 : List.Perm (CombinedDeviceInfo.new devs sys2 dd pm fs)
        (CombinedDeviceInfo.new devs sys dd pm fs) := by
      unfold CombinedDeviceInfo.new
      exact ((List.mergeSort_perm _ _).trans (hperm.map _)).trans
        (List.mergeSort_perm _ _).symm
    have hmap := hperm2.map (fun d => d.name)
    haveI : IsAntisymm String (fun a b => a ≤ b) :=
      ⟨fun a b h1 h2 => le_antisymm h1 h2⟩
    have hs1 : ((CombinedDeviceInfo.new devs sys2 dd pm fs).map
        (fun d => d.name)).Pairwise (fun a b => a ≤ b) :=
      List.pairwise_map.mpr (pairwise_name_mergeSort _ _)
    have hs2 : ((CombinedDeviceInfo.new devs sys dd pm fs).map
        (fun d => d.name)).Pairwise (fun a b => a ≤ b) :=
      List.pairwise_map.mpr (pairwise_name_mergeSort _ _)
    exact List.eq_of_perm_of_sorted hmap hs1 hs2

/-- Witness for C4: swapping two topology records leaves the output name
sequence unchanged. -/
theorem C4_sorted_output_witness :
    (CombinedDeviceInfo.new wdevs w4ba wdd wpm wfs).map (fun d => d.name) =
      (CombinedDeviceInfo.new wdevs w4ab wdd wpm wfs).map (fun d => d.name) :=
  (C4_sorted_output wdevs w4ab wdd wpm wfs).2.2 w4ba
    (List.Perm.swap wsbA wsbB [])

/-- Claim C9: an entity whose name matches no label/UUID record has both
`label` and `uuids` absent (`none`), never an empty string or an empty
list. -/
theorem C9_absent_fields :
    ∀ (devs : String → Option ByteBuf) (sys : SysBlockInfo) (dd : DevDiskInfo)
      (pm : ProcMountsInfo) (fs : FstabInfo),
      ∀ dev ∈ CombinedDeviceInfo.new devs sys dd pm fs,
        ((∀ r ∈ dd.info, ¬ (r.name = dev.name)) →
          dev.label = none ∧ dev.uuids = none) ∧
        (∀ p ∈ dev.partitions,
          (∀ r ∈ dd.info, ¬ (r.name = p.name)) →
            p.label = none ∧ p.uuids = none) := by
  intro devs sys dd pm fs dev hdev
  obtain ⟨sb, hsb, rfl⟩ := (mem_new_iff devs sys dd pm fs dev).mp hdev
  constructor
  · intro hno
    simp only [build_device_name] at hno
    have hfind : List.find? (fun d => d.name == sb.name) dd.info = none :=
      List.find?_eq_none.mpr (by simpa using hno)
    constructor
    · rw [build_device_label, hfind]
      rfl
    · rw [build_device_uuids, hfind]
      rfl
  · intro p hp hno
    obtain ⟨ps, hps, x, hx, rfl⟩ := (mem_partitions_iff devs dd pm fs sb p).mp hp
    simp only [build_partition_name] at hno
    have hfind : List.find? (fun d => d.name == x.name) dd.info = none :=
      List.find?_eq_none.mpr (by simpa using hno)
    constructor
    · rw [build_partition_label, hfind]
      rfl
    · rw [build_partition_uuids, hfind]
      rfl

unseal List.merge List.mergeSort in
/-- Witness for C9: with no label/UUID records at all, the output device has
absent label and uuid list. -/
theorem C9_absent_fields_witness :
    ((CombinedDeviceInfo.new wdevs wsys wdd wpm wfs).getD 0 default).label = none ∧
    ((CombinedDeviceInfo.new wdevs wsys wdd wpm wfs).getD 0 default).uuids = none :=
  (C9_absent_fields wdevs wsys wdd wpm wfs
      ((CombinedDeviceInfo.new wdevs wsys wdd wpm wfs).getD 0 default)
      (by decide)).1 (by decide)

unseal List.merge List.mergeSort in
/-- Claim C10: the UUID section of the renderer indexes elements 0 and (when
the length is not exactly 1) element 1 with no bounds guard: it is total
exactly for non-empty lists, a singleton renders the single value, two or
more render the first two as `first (second)`, and a present-but-empty uuid
list, which the aggregation's verbatim copy lets through to rendering, makes
the formatter panic (modelled as `none`). -/
theorem C10_uuid_render :
    (∀ (indent : String) (uuids : List String), 1 ≤ uuids.length →
      (format_uuids indent uuids).isSome) ∧
    (∀ (indent u : String),
      format_uuids indent [u] = some (indent ++ "• UUID: " ++ u ++ "\n")) ∧
    (∀ (indent u0 u1 : String) (rest : List String),
      format_uuids indent (u0 :: u1 :: rest) =
        some (indent ++ "• UUID: " ++ u0 ++ " (" ++ u1 ++ ")\n")) ∧
    (∀ indent : String, format_uuids indent [] = none) ∧
    (∀ (indent : String) (size : Option Nat)
        (filesystem label mp : Option String) (rem : Option Bool)
        (fe : Option Fstab),
      format_common_fields indent size filesystem label mp rem (some []) fe =
        none) ∧
    ((CombinedDeviceInfo.new wdevs wsys w10dd wpm wfs).getD 0 default).uuids =
      some ([]) := by
  refine ⟨?_, ?_, ?_, ?_, ?_, by decide⟩
  · intro indent uuids h
    match uuids with
    | [u] => simp [format_uuids]
    | u0 :: u1 :: rest => simp [format_uuids]
  · intro indent u
    rfl
  · intro indent u0 u1 rest
    simp [format_uuids]
  · intro indent
    rfl
  · intro indent size filesystem label mp rem fe
    rfl

/-- Witness for C10: rendering a singleton uuid list succeeds. -/
theorem C10_uuid_render_witness :
    (format_uuids ("      ") (["AAAA"])).isSome :=
  C10_uuid_render.1 ("      ") (["AAAA"]) (by decide)
